import Mathlib

/-!
Verification of the NZ property-flip calculator and its valuation pipeline.

Conventions of the embedding:
* Python floats are modelled as exact rationals (`ℚ`); Python `round` on
  exact decimal values rounds half to even, which `rhe` implements.
* Python `None` is `Option.none`; Python truthiness of an optional number
  (`if x:`) is `truthyQ`, which is false for `None` and for `0`.
* Wall-clock dates are day numbers (`ℕ`); timestamps in the cache layer are
  measured in days (`ℚ`).
-/

section Embedding

attribute [local semireducible] Rat.add Rat.mul Rat.sub Rat.inv Rat.ofScientific

/-- Round half to even (banker's rounding): what Python's builtin `round`
performs on exact decimal values. -/
def rhe (q : ℚ) : ℤ :=
  if q - ⌊q⌋ < 1/2 then ⌊q⌋
  else if 1/2 < q - ⌊q⌋ then ⌊q⌋ + 1
  else if ⌊q⌋ % 2 = 0 then ⌊q⌋ else ⌊q⌋ + 1

/-- Python `round(x, 2)`, used for all currency outputs. -/
def pyRound2 (q : ℚ) : ℚ := (rhe (q * 100) : ℚ) / 100

/-- Python `round(x, 0)`. -/
def pyRound0 (q : ℚ) : ℚ := (rhe q : ℚ)

theorem floor_le_rhe (q : ℚ) : ⌊q⌋ ≤ rhe q := by
  unfold rhe
  split_ifs <;> omega

theorem rhe_le_floor_add_one (q : ℚ) : rhe q ≤ ⌊q⌋ + 1 := by
  unfold rhe
  split_ifs <;> omega

theorem rhe_mono {a b : ℚ} (h : a ≤ b) : rhe a ≤ rhe b := by
  rcases lt_or_ge ⌊a⌋ ⌊b⌋ with hf | hf
  · calc rhe a ≤ ⌊a⌋ + 1 := rhe_le_floor_add_one a
      _ ≤ ⌊b⌋ := by omega
      _ ≤ rhe b := floor_le_rhe b
  · have hfe : ⌊a⌋ = ⌊b⌋ := le_antisymm (Int.floor_mono h) hf
    unfold rhe
    rw [hfe]
    split_ifs <;> first | omega | (exfalso; linarith)

theorem pyRound0_mono {a b : ℚ} (h : a ≤ b) : pyRound0 a ≤ pyRound0 b := by
  unfold pyRound0
  exact_mod_cast rhe_mono h

/-- Python truthiness of an optional number: `None` and `0` are falsy. -/
def truthyQ : Option ℚ → Bool
  | none => false
  | some x => decide (x ≠ 0)

/-- Python truthiness of an optional string: `None` and `""` are falsy. -/
def truthyS : Option String → Bool
  | none => false
  | some s => decide (s ≠ "")

/-! ### `backend/config.py` — the financial configuration defaults -/

namespace Config

def GST_RATE : ℚ := 15/100
def TAX_RATE : ℚ := 33/100
def COMMISSION_RATE : ℚ := 18/1000
def MIN_PROFIT_THRESHOLD : ℚ := 25000
def TARGET_PROFIT_MIN : ℚ := 25000
def TARGET_PROFIT_MAX : ℚ := 30000
def DEFAULT_INSURANCE : ℚ := 1800
def DEFAULT_RENOVATION_BUDGET : ℚ := 100000
def DEFAULT_LEGAL_EXPENSES : ℚ := 2500
def DEFAULT_COUNCIL_RATES : ℚ := 2000
def CACHE_EXPIRY_DAYS : ℚ := 7

end Config

/-! ### `backend/calculator.py` — `PropertyFlipCalculator` -/

/-- The loop of `PropertyFlipCalculator._calculate_recommended_pp`: one
constructor argument per remaining iteration of `for _ in range(100)`,
with the running `pp_guess` as the last argument.  Each round recomputes
the post-tax profit at the current guess, returns the guess when within
$100 of the target, and otherwise moves the guess by `diff * 0.8`,
resetting it to `tv * 0.1` when negative and to `tv * 0.9` when above
`tv`. -/
def recommendedLoop (tv target ins rb le cr com mrate months : ℚ) : ℕ → ℚ → ℚ
  | 0, g => g
  | fuel+1, g =>
    let int_cost := (g + rb) * mrate * months
    let gst_claimable := (g + rb + le) * (Config.GST_RATE / (1 + Config.GST_RATE))
    let gst_payable := tv * (Config.GST_RATE / (1 + Config.GST_RATE))
    let net_gst := gst_payable - gst_claimable
    let gross_profit := tv - g - rb - le - cr - ins - com - int_cost
    let pre_tax_profit := gross_profit - net_gst
    let post_tax_profit := pre_tax_profit * (1 - Config.TAX_RATE)
    if |post_tax_profit - target| < 100 then g
    else
      let g1 := g + (post_tax_profit - target) * (8/10)
      let g2 := if g1 < 0 then tv * (1/10) else if tv < g1 then tv * (9/10) else g1
      recommendedLoop tv target ins rb le cr com mrate months fuel g2

/-- `PropertyFlipCalculator._calculate_recommended_pp`. -/
def calc_recommended_pp (tv target_post_tax ins rb le cr int_rate renovation_months : ℚ) : ℚ :=
  let com := tv * Config.COMMISSION_RATE
  let monthly_interest_rate := int_rate / 12
  recommendedLoop tv target_post_tax ins rb le cr com monthly_interest_rate renovation_months
    100 (tv * (5/10))

/-- The dict returned by `PropertyFlipCalculator.calculate`. -/
structure CalcResult where
  pp : ℚ
  tv : ℚ
  rv : Option ℚ
  cv : Option ℚ
  ins : ℚ
  rb : ℚ
  le : ℚ
  cr : ℚ
  com : ℚ
  int_cost : ℚ
  int_rate : ℚ
  renovation_months : ℚ
  gst_claimable : ℚ
  gst_payable : ℚ
  net_gst : ℚ
  gross_profit : ℚ
  pre_tax_profit : ℚ
  post_tax_profit : ℚ
  is_viable : Bool
  recommended_pp : Option ℚ
deriving DecidableEq

/-- `PropertyFlipCalculator.calculate`.  Optional arguments default exactly
as the source does (`is None` checks); the `rv`, `cv` and `recommended_pp`
outputs go through Python truthiness (`round(x, 2) if x else None`). -/
def calculate (pp tv : ℚ) (rv cv ins rb le cr int_rate renovation_months : Option ℚ) :
    CalcResult :=
  let ins := ins.getD Config.DEFAULT_INSURANCE
  let rb := rb.getD Config.DEFAULT_RENOVATION_BUDGET
  let le := le.getD Config.DEFAULT_LEGAL_EXPENSES
  let cr := cr.getD Config.DEFAULT_COUNCIL_RATES
  let int_rate := int_rate.getD (75/1000)
  let renovation_months := renovation_months.getD 6
  let com := tv * Config.COMMISSION_RATE
  let total_financed := pp + rb
  let monthly_interest_rate := int_rate / 12
  let int_cost := total_financed * monthly_interest_rate * renovation_months
  let gst_claimable := (pp + rb + le) * (Config.GST_RATE / (1 + Config.GST_RATE))
  let gst_payable := tv * (Config.GST_RATE / (1 + Config.GST_RATE))
  let net_gst := gst_payable - gst_claimable
  let gross_profit := tv - pp - rb - le - cr - ins - com - int_cost
  let pre_tax_profit := gross_profit - net_gst
  let post_tax_profit := pre_tax_profit * (1 - Config.TAX_RATE)
  let is_viable := decide (Config.MIN_PROFIT_THRESHOLD ≤ post_tax_profit)
  let recommended_pp : Option ℚ :=
    if is_viable then none
    else some (calc_recommended_pp tv
      ((Config.TARGET_PROFIT_MIN + Config.TARGET_PROFIT_MAX) / 2)
      ins rb le cr int_rate renovation_months)
  { pp := pyRound2 pp
    tv := pyRound2 tv
    rv := if truthyQ rv then some (pyRound2 (rv.getD 0)) else none
    cv := if truthyQ cv then some (pyRound2 (cv.getD 0)) else none
    ins := pyRound2 ins
    rb := pyRound2 rb
    le := pyRound2 le
    cr := pyRound2 cr
    com := pyRound2 com
    int_cost := pyRound2 int_cost
    int_rate := pyRound2 (int_rate * 100)
    renovation_months := renovation_months
    gst_claimable := pyRound2 gst_claimable
    gst_payable := pyRound2 gst_payable
    net_gst := pyRound2 net_gst
    gross_profit := pyRound2 gross_profit
    pre_tax_profit := pyRound2 pre_tax_profit
    post_tax_profit := pyRound2 post_tax_profit
    is_viable := is_viable
    recommended_pp := if truthyQ recommended_pp then some (pyRound2 (recommended_pp.getD 0))
      else none }

/-- The post-tax profit the solver's loop body computes at purchase-price
guess `g` (shared by the restatements of the loop below). -/
def postTaxAt (tv ins rb le cr com mrate months g : ℚ) : ℚ :=
  let int_cost := (g + rb) * mrate * months
  let gst_claimable := (g + rb + le) * (Config.GST_RATE / (1 + Config.GST_RATE))
  let gst_payable := tv * (Config.GST_RATE / (1 + Config.GST_RATE))
  let net_gst := gst_payable - gst_claimable
  let gross_profit := tv - g - rb - le - cr - ins - com - int_cost
  let pre_tax_profit := gross_profit - net_gst
  pre_tax_profit * (1 - Config.TAX_RATE)

/-- The solver exactly as claim C2 words it: each round updates the guess by
SUBTRACTING `0.8 × (postTaxProfit(guess) − target)` and clamps the guess into
the interval `[0.1·tv, 0.9·tv]` on overshoot. -/
def claimRecommendedLoop (tv target ins rb le cr com mrate months : ℚ) : ℕ → ℚ → ℚ
  | 0, g => g
  | fuel+1, g =>
    let post := postTaxAt tv ins rb le cr com mrate months g
    if |post - target| < 100 then g
    else
      let g1 := g - (post - target) * (8/10)
      claimRecommendedLoop tv target ins rb le cr com mrate months fuel
        (max (tv * (1/10)) (min (tv * (9/10)) g1))

/-- The recommended purchase price claim C2 describes: start at `0.5·tv`,
at most 100 rounds of `claimRecommendedLoop`. -/
def claim_recommended_pp (tv target ins rb le cr int_rate months : ℚ) : ℚ :=
  claimRecommendedLoop tv target ins rb le cr (tv * Config.COMMISSION_RATE) (int_rate / 12)
    months 100 (tv * (5/10))

/-- The guess adjustment the source actually performs after an update: a
guess below 0 is reset to `0.1·tv`, one above `tv` is reset to `0.9·tv`,
anything in between is kept (so a guess in `(0, 0.1·tv)` survives). -/
def resetGuess (tv g : ℚ) : ℚ :=
  if g < 0 then tv * (1/10) else if tv < g then tv * (9/10) else g

/-- The amended solver loop: the guess moves by ADDING
`0.8 × (postTaxProfit(guess) − target)` and is then reset by `resetGuess`. -/
def amendedRecommendedLoop (tv target ins rb le cr com mrate months : ℚ) : ℕ → ℚ → ℚ
  | 0, g => g
  | fuel+1, g =>
    let post := postTaxAt tv ins rb le cr com mrate months g
    if |post - target| < 100 then g
    else amendedRecommendedLoop tv target ins rb le cr com mrate months fuel
      (resetGuess tv (g + (post - target) * (8/10)))

/-- The amended recommended purchase price: start at `0.5·tv`, at most 100
rounds, stop within $100 of the target, return the last guess otherwise. -/
def amended_recommended_pp (tv target ins rb le cr int_rate months : ℚ) : ℚ :=
  amendedRecommendedLoop tv target ins rb le cr (tv * Config.COMMISSION_RATE) (int_rate / 12)
    months 100 (tv * (5/10))

theorem recommendedLoop_eq_amended (tv target ins rb le cr com mrate months : ℚ) :
    ∀ fuel g, recommendedLoop tv target ins rb le cr com mrate months fuel g
      = amendedRecommendedLoop tv target ins rb le cr com mrate months fuel g
  | 0, _ => rfl
  | fuel+1, g => by
    simp only [recommendedLoop, amendedRecommendedLoop, postTaxAt, resetGuess]
    split_ifs <;>
      first
        | rfl
        | exact recommendedLoop_eq_amended tv target ins rb le cr com mrate months fuel _

/-! ### `backend/utils/cache_manager.py` — `CacheManager` -/

/-- A cached `Property` row: `updated_at` is its timestamp in days,
`payload` stands for the remaining stored columns. -/
structure PropertyEntry where
  updated_at : ℚ
  payload : ℕ
deriving DecidableEq

/-- `CacheManager.is_cache_valid` with `datetime.utcnow()` passed in as
`now` and times measured in days: valid iff the timestamp is present
(truthy) and greater than `now - cache_expiry_days`. -/
def is_cache_valid (cache_expiry_days now : ℚ) (timestamp : Option ℚ) : Bool :=
  match timestamp with
  | none => false
  | some ts => decide (now - cache_expiry_days < ts)

/-- The `Property.query ... first()` result that `get_cached_property`
selects: the url filter when a truthy url is given, else the address
filter, else nothing. -/
def cacheLookup (trademe_url address : Option String)
    (byUrl byAddress : Option PropertyEntry) : Option PropertyEntry :=
  if truthyS trademe_url then byUrl
  else if truthyS address then byAddress
  else none

/-- `CacheManager.get_cached_property`: `byUrl`/`byAddress` model the two
filters' query results. -/
def get_cached_property (cache_expiry_days now : ℚ) (address trademe_url : Option String)
    (byUrl byAddress : Option PropertyEntry) : Option PropertyEntry :=
  match cacheLookup trademe_url address byUrl byAddress with
  | some p =>
    if is_cache_valid cache_expiry_days now (some p.updated_at) then some p else none
  | none => none

/-- Cache validity exactly as claim C7 words it: stale exactly when
`now - storedAt > CACHE_EXPIRY_DAYS`, valid = present and not stale. -/
def claim_cache_valid (cache_expiry_days now : ℚ) (timestamp : Option ℚ) : Bool :=
  match timestamp with
  | none => false
  | some ts => decide (¬ (now - ts > cache_expiry_days))

/-! ### `backend/utils/similar_property_matcher.py` — `SimilarPropertyMatcher` -/

/-- ASCII lowering of one character, modelling Python `str.lower` on the
ASCII data this pipeline handles. -/
def charLower (c : Char) : Char :=
  if 65 ≤ c.toNat ∧ c.toNat ≤ 90 then Char.ofNat (c.toNat + 32) else c

/-- Python `str.lower` (ASCII model). -/
def pyLower (s : String) : String := ⟨s.data.map charLower⟩

/-- Python's whitespace test for `str.strip`, on the common ASCII blanks. -/
def isPySpace (c : Char) : Bool := c = ' ' || c = '\t' || c = '\n' || c = '\r'

/-- Python `str.strip`. -/
def pyStrip (s : String) : String :=
  ⟨((s.data.dropWhile isPySpace).reverse.dropWhile isPySpace).reverse⟩

/-- A `RecentSale` row as the matcher reads it. -/
structure RecentSale where
  suburb : String
  bedrooms : ℤ
  floor_area : Option ℚ
  sale_price : Option ℚ
deriving DecidableEq

/-- `SimilarPropertyMatcher._suburbs_match`: false when either string is
falsy (empty), else equality of the lowercased, stripped strings. -/
def suburbs_match (suburb1 suburb2 : String) : Bool :=
  if suburb1 = "" ∨ suburb2 = "" then false
  else pyStrip (pyLower suburb1) == pyStrip (pyLower suburb2)

/-- The filter body of `SimilarPropertyMatcher.find_comparables`: suburb
match, exact bedroom match, and — only when both floor areas are truthy —
the ±20% floor-area test. -/
def keep_sale (target_suburb : String) (target_bedrooms : ℤ) (target_floor_area : Option ℚ)
    (sale : RecentSale) : Bool :=
  if ¬ suburbs_match sale.suburb target_suburb then false
  else if sale.bedrooms ≠ target_bedrooms then false
  else if truthyQ sale.floor_area && truthyQ target_floor_area then
    let fa := sale.floor_area.getD 0
    let tfa := target_floor_area.getD 0
    decide (¬ (|fa - tfa| / tfa > 20/100))
  else true

/-- `SimilarPropertyMatcher.find_comparables`. -/
def find_comparables (sales : List RecentSale) (target_suburb : String)
    (target_bedrooms : ℤ) (target_floor_area : Option ℚ) : List RecentSale :=
  match sales with
  | [] => []
  | _ => sales.filter (keep_sale target_suburb target_bedrooms target_floor_area)

/-- The membership test exactly as claim C9 words it: suburb equal
case-insensitively after trimming, bedrooms equal, and whenever both floor
areas are PRESENT, `|floorArea - target| / target ≤ 0.20`. -/
def claimKeeps (target_suburb : String) (target_bedrooms : ℤ) (target_floor_area : Option ℚ)
    (sale : RecentSale) : Bool :=
  (pyStrip (pyLower sale.suburb) == pyStrip (pyLower target_suburb)) &&
  (sale.bedrooms == target_bedrooms) &&
  (match sale.floor_area, target_floor_area with
   | some fa, some tfa => decide (|fa - tfa| / tfa ≤ 20/100)
   | _, _ => true)

/-- The amended membership test: both suburbs non-empty and equal
case-insensitively after trimming, bedrooms equal, and the ±20% floor-area
test applied only when both floor areas are present AND nonzero (a zero
floor area is falsy in the source and skips the test). -/
def amendedKeeps (target_suburb : String) (target_bedrooms : ℤ) (target_floor_area : Option ℚ)
    (sale : RecentSale) : Bool :=
  (sale.suburb ≠ "" && target_suburb ≠ "" &&
    (pyStrip (pyLower sale.suburb) == pyStrip (pyLower target_suburb))) &&
  (sale.bedrooms == target_bedrooms) &&
  (match sale.floor_area, target_floor_area with
   | some fa, some tfa =>
     if fa ≠ 0 ∧ tfa ≠ 0 then decide (|fa - tfa| / tfa ≤ 20/100) else true
   | _, _ => true)

theorem keep_sale_eq_amended (ts : String) (tb : ℤ) (tfa : Option ℚ) (s : RecentSale) :
    keep_sale ts tb tfa s = amendedKeeps ts tb tfa s := by
  unfold keep_sale amendedKeeps suburbs_match truthyQ
  rcases s with ⟨sub, beds, fl, priceOpt⟩
  by_cases h1 : sub = "" <;> by_cases h2 : ts = "" <;>
    simp only [h1, h2] <;>
    cases fl <;> cases tfa <;>
    simp_all [Bool.and_assoc, Bool.beq_eq_decide_eq]

/-! ### `app/scoring.py` — the margin sub-score of `score_datapoints` -/

/-- The `margin_score` field `score_datapoints` computes from
`est_purchase_price`, `est_rehab_cost` and `est_after_repair_value`:
`None` unless all three are truthy and the total cost is positive. -/
def margin_score_of (est_purchase_price est_rehab_cost est_after_repair_value : Option ℚ) :
    Option ℚ :=
  if truthyQ est_purchase_price && truthyQ est_rehab_cost && truthyQ est_after_repair_value then
    let pp := est_purchase_price.getD 0
    let rc := est_rehab_cost.getD 0
    let arv := est_after_repair_value.getD 0
    let total_cost := pp + rc
    let net_sale := arv * (94/100)
    let profit := net_sale - total_cost
    if 0 < total_cost then
      let r := profit / total_cost
      some (if r ≤ 0 then 0 else if 20/100 ≤ r then 6 else 6 * (r / (20/100)))
    else none
  else none

/-- The margin ratio as claim C8 words it:
`(netSale − totalCost)/totalCost` with `netSale = ARV × 0.94` and
`totalCost = purchasePrice + rehabCost`. -/
def claimMarginRatio (purchasePrice rehabCost afterRepairValue : ℚ) : ℚ :=
  (afterRepairValue * (94/100) - (purchasePrice + rehabCost)) / (purchasePrice + rehabCost)

/-- The piecewise margin sub-score as claim C8 words it. -/
def claimMarginSub (r : ℚ) : ℚ :=
  if r ≤ 0 then 0 else if 20/100 ≤ r then 6 else 6 * (r / (20/100))

/-! ### `app/providers/concurrent_browser_manager.py` — extraction and
synthetic estimation -/

/-- Python `needle in hay` on strings: contiguous-substring test. -/
def strContains (hay needle : String) : Bool :=
  (List.range (hay.data.length + 1)).any fun i =>
    (hay.data.drop i).take needle.data.length == needle.data

/-- Splitting a string at every slash, modelling `url.split('/')`. -/
def splitSlashAux : List Char → List Char → List (List Char)
  | [], acc => [acc.reverse]
  | c :: rest, acc =>
    if c = '/' then acc.reverse :: splitSlashAux rest [] else splitSlashAux rest (c :: acc)

/-- Python `url.split('/')`. -/
def pySplitSlash (s : String) : List String := (splitSlashAux s.data []).map List.asString

/-- The city detection chain of `_estimate_valuation_data_from_url`
(argument already lowercased; default "auckland"). -/
def detectCity (u : String) : String :=
  if strContains u "auckland" then "auckland"
  else if strContains u "wellington" then "wellington"
  else if strContains u "christchurch" then "christchurch"
  else if strContains u "hamilton" then "hamilton"
  else if strContains u "tauranga" then "tauranga"
  else if strContains u "dunedin" then "dunedin"
  else "auckland"

/-- The property-type detection chain of `_estimate_valuation_data_from_url`. -/
def detectPropertyType (u : String) : String :=
  if strContains u "commercial" then "commercial"
  else if strContains u "land" then "land"
  else if strContains u "apartment" then "apartment"
  else if strContains u "new-homes" then "new_home"
  else "residential"

def cityNames : List String :=
  ["auckland", "wellington", "christchurch", "hamilton", "tauranga", "dunedin"]

/-- The suburb extraction of `_estimate_valuation_data_from_url`: the URL
part right after the first part that is a known city name. -/
def extractSuburb : List String → Option String
  | [] => none
  | p :: rest => if p ∈ cityNames then rest.head? else extractSuburb rest

/-- The `city_prices` table of `_get_base_price_for_city`, in source order. -/
def city_prices : List (String × ℚ) :=
  [("auckland", 1200000), ("wellington", 950000), ("christchurch", 650000),
   ("hamilton", 580000), ("tauranga", 720000), ("dunedin", 520000),
   ("palmerston north", 480000), ("nelson", 680000), ("rotorua", 450000),
   ("new plymouth", 500000), ("remuera", 1800000), ("ponsonby", 1600000),
   ("takapuna", 1700000), ("epsom", 1750000)]

/-- `_get_base_price_for_city`: the first table entry whose name occurs in
the lowercased city string, else the 650000 NZ-average default. -/
def get_base_price_for_city (city : String) : ℚ :=
  match city_prices.find? (fun cp => strContains (pyLower city) cp.1) with
  | some cp => cp.2
  | none => 650000

/-- The property-type price adjustment of `_estimate_valuation_data_from_url`. -/
def typeAdjust (property_type : String) (bp : ℚ) : ℚ :=
  if property_type = "commercial" then bp * (8/10)
  else if property_type = "land" then bp * (6/10)
  else if property_type = "apartment" then bp * (9/10)
  else if property_type = "new_home" then bp * (11/10)
  else bp

def premiumAucklandSuburbs : List String :=
  ["remuera", "ponsonby", "takapuna", "epsom", "herne bay"]

def premiumWellingtonSuburbs : List String := ["thorndon", "kelburn", "wadestown"]

/-- The premium-suburb price adjustment of `_estimate_valuation_data_from_url`. -/
def suburbAdjust (suburb : Option String) (bp : ℚ) : ℚ :=
  match suburb with
  | some s =>
    if s ∈ premiumAucklandSuburbs then bp * (13/10)
    else if s ∈ premiumWellingtonSuburbs then bp * (12/10)
    else bp
  | none => bp

/-- Model of `int(hashlib.md5(url.encode()).hexdigest()[:8], 16)`: a fixed
deterministic hash of the string's characters.  The claims use only that
the seed is a pure function of the input string. -/
def md5seed (s : String) : ℕ :=
  s.data.foldl (fun a c => (a * 131 + c.toNat) % 4294967296) 5381

/-- Model of the k-th raw draw of Python's `random.Random(seed)` stream: a
deterministic mixing of seed and draw index with value in `[0, 10^6)`.
The claims use only determinism and the range bounds it induces. -/
def rawDraw (seed k : ℕ) : ℕ := ((seed + 1) * 2654435761 + (k + 1) * 40503) % 1000000

/-- Model of `rng.uniform a b` as the k-th draw of the seeded stream. -/
def rngUniform (seed k : ℕ) (a b : ℚ) : ℚ :=
  a + (b - a) * ((rawDraw seed k : ℚ) / 1000000)

/-- Model of `rng.randint a b` as the k-th draw of the seeded stream. -/
def rngRandint (seed k a b : ℕ) : ℕ := a + rawDraw seed k % (b - a + 1)

/-- The priced synthetic estimate dict of
`_estimate_valuation_data_from_url` (its date handed back as a day
number). -/
structure EstimateData where
  low : ℚ
  mid : ℚ
  high : ℚ
  last_sale_price : ℚ
  last_sale_date : ℕ
  source : String
  property_type : String
  suburb : Option String
  method_of_sale : String
deriving DecidableEq

/-- `ConcurrentBrowserManager._estimate_valuation_data_from_url`: the
synthetic deterministic tier.  `today` models `datetime.now()` as a day
number; the returned `last_sale_date` is `today - days_ago` (the source
formats that date with `strftime`, so equal day numbers give identical
date strings and different day numbers give different ones). -/
def estimate_valuation_data_from_url (url site_name : String) (today : ℕ) : EstimateData :=
  let url_lower := pyLower url
  let city := detectCity url_lower
  let property_type := detectPropertyType url_lower
  let suburb := extractSuburb (pySplitSlash url_lower)
  let base_price := suburbAdjust suburb (typeAdjust property_type (get_base_price_for_city city))
  let seed := md5seed url
  let variation := rngUniform seed 0 (85/100) (115/100)
  let mid_price := base_price * variation
  let low_price := mid_price * rngUniform seed 1 (80/100) (90/100)
  let high_price := mid_price * rngUniform seed 2 (110/100) (120/100)
  let last_sale_price := mid_price * rngUniform seed 3 (75/100) (105/100)
  let days_ago := rngRandint seed 4 60 1095
  { low := pyRound0 low_price
    mid := pyRound0 mid_price
    high := pyRound0 high_price
    last_sale_price := pyRound0 last_sale_price
    last_sale_date := today - days_ago
    source := site_name ++ " URL Analysis (Concurrent Browser blocked)"
    property_type := property_type
    suburb := suburb
    method_of_sale := "Estimated" }

/-- The three priced fields of a parsed page. -/
structure ParsedValuation where
  low : ℚ
  mid : ℚ
  high : ℚ
deriving DecidableEq

/-- `_parse_page_content` when `_extract_valuation_range` produced a range
passing the plausibility guard: `mid = (low + high)/2`, all three rounded. -/
def parseFromRange (low high : ℚ) : ParsedValuation :=
  let mid := (low + high) / 2
  { low := pyRound0 low, mid := pyRound0 mid, high := pyRound0 high }

/-- The plausibility guard of `_extract_valuation_range`. -/
def rangeGuard (low high : ℚ) : Prop :=
  100000 < low ∧ low < high ∧ low < 10000000 ∧ high < 10000000

/-- `_parse_page_content` when only `_extract_general_price` found a single
figure: `low = mid·0.85`, `high = mid·1.15`. -/
def parseFromSingle (mid : ℚ) : ParsedValuation :=
  { low := pyRound0 (mid * (85/100)), mid := pyRound0 mid, high := pyRound0 (mid * (115/100)) }

/-- The guard of `_extract_general_price`. -/
def singleGuard (mid : ℚ) : Prop := 100000 < mid

/-! ### `ConcurrentBrowserManager.fetch_with_browser` -/

/-- The dict `_scrape_with_browser`/`_parse_page_content` hands back on
success. -/
structure PropertyData where
  low : Option ℚ
  mid : Option ℚ
  high : Option ℚ
  last_sale_price : Option ℚ
  last_sale_date : Option ℕ
  source : Option String
  method_of_sale : Option String
deriving DecidableEq

/-- The `models.DataPoints` record `fetch_with_browser` returns. -/
structure DataPoints where
  address : String
  current_valuation_low : Option ℚ
  current_valuation_mid : Option ℚ
  current_valuation_high : Option ℚ
  last_sale_price : Option ℚ
  last_sale_date : Option ℕ
  valuation_source : String
  method_of_sale : Option String
deriving DecidableEq

/-- The `DataPoints` built in the try branch of `fetch_with_browser` from a
successful scrape (`property_data.get('source', f'{site_name} (Concurrent
Browser)')`). -/
def dataPointsFromScrape (address site_name : String) (d : PropertyData) : DataPoints :=
  { address := address
    current_valuation_low := d.low
    current_valuation_mid := d.mid
    current_valuation_high := d.high
    last_sale_price := d.last_sale_price
    last_sale_date := d.last_sale_date
    valuation_source := d.source.getD (site_name ++ " (Concurrent Browser)")
    method_of_sale := d.method_of_sale }

/-- The `DataPoints` built in the except branch of `fetch_with_browser`
from the synthetic URL estimate (whose dict always carries a source). -/
def dataPointsFromEstimate (address : String) (e : EstimateData) : DataPoints :=
  { address := address
    current_valuation_low := some e.low
    current_valuation_mid := some e.mid
    current_valuation_high := some e.high
    last_sale_price := some e.last_sale_price
    last_sale_date := some e.last_sale_date
    valuation_source := e.source
    method_of_sale := some e.method_of_sale }

/-- `ConcurrentBrowserManager.fetch_with_browser`: the try block runs
browser initialization, per-browser rate limiting and the scrape in
sequence — each modelled by its outcome, `Except.error` when that stage
raises — and any raised exception lands in the except branch, which
returns the synthetic URL-based estimate instead of re-raising. -/
def fetch_with_browser (address url site_name : String) (today : ℕ)
    (init_outcome rate_outcome : Except String Unit)
    (scrape_outcome : Except String PropertyData) : DataPoints :=
  match init_outcome with
  | .error _ => dataPointsFromEstimate address (estimate_valuation_data_from_url url site_name today)
  | .ok _ =>
    match rate_outcome with
    | .error _ =>
      dataPointsFromEstimate address (estimate_valuation_data_from_url url site_name today)
    | .ok _ =>
      match scrape_outcome with
      | .error _ =>
        dataPointsFromEstimate address (estimate_valuation_data_from_url url site_name today)
      | .ok d => dataPointsFromScrape address site_name d

/-! ### `ConcurrentBrowserManager._gradual_scroll` -/

/-- One execution of `_gradual_scroll`'s `while True` body per unit of
`fuel`, starting at iteration index `i` with current scroll offset `p`.
`height k` is the document height the k-th height query returns (two
queries per iteration); scroll offsets are modelled as the requested
targets.  Returns `true` iff the loop's `break` is reached within `fuel`
iterations — the loop has no other exit. -/
def scrollExitsAux (height : ℕ → ℕ) : ℕ → ℕ → ℕ → Bool
  | 0, _, _ => false
  | fuel+1, i, p =>
    let new_position := p + 500
    let new_height := height (2*i)
    if new_height ≤ new_position + 1000 then
      let h2 := height (2*i+1)
      if h2 = new_height then true else scrollExitsAux height fuel (i+1) h2
    else scrollExitsAux height fuel (i+1) new_position

/-- Whether `_gradual_scroll`'s loop exits within `fuel` iterations. -/
def scrollExits (height : ℕ → ℕ) (fuel : ℕ) : Bool := scrollExitsAux height fuel 0 0

/-- A lazy-loading page whose document height grows by 1000 pixels at every
height query — faster than the 500-pixel scroll step, so the bottom is
never reached. -/
def growingPage (k : ℕ) : ℕ := 1000 * k + 2000

theorem scrollExitsAux_growingPage (fuel : ℕ) :
    ∀ i p, p ≤ 500 * i → scrollExitsAux growingPage fuel i p = false := by
  induction fuel with
  | zero => intro i p _; rfl
  | succ n ih =>
    intro i p hp
    have hcond : ¬ growingPage (2*i) ≤ (p + 500) + 1000 := by
      unfold growingPage; omega
    simp only [scrollExitsAux, if_neg hcond]
    exact ih (i+1) (p + 500) (by omega)

/-! ### Supporting lemmas for the synthetic tier's bounds -/

theorem rawDraw_lt (seed k : ℕ) : rawDraw seed k < 1000000 :=
  Nat.mod_lt _ (by norm_num)

theorem rngUniform_bounds (seed k : ℕ) {a b : ℚ} (h : a ≤ b) :
    a ≤ rngUniform seed k a b ∧ rngUniform seed k a b ≤ b := by
  unfold rngUniform
  have h0 : (0:ℚ) ≤ (rawDraw seed k : ℚ) / 1000000 :=
    div_nonneg (Nat.cast_nonneg _) (by norm_num)
  have h1 : (rawDraw seed k : ℚ) / 1000000 ≤ 1 := by
    rw [div_le_one (by norm_num)]
    exact_mod_cast le_of_lt (rawDraw_lt seed k)
  constructor
  · nlinarith
  · nlinarith

theorem get_base_price_pos (city : String) : 0 < get_base_price_for_city city := by
  unfold get_base_price_for_city
  cases hf : city_prices.find? (fun cp => strContains (pyLower city) cp.1) with
  | none => norm_num
  | some cp =>
    have hmem : cp ∈ city_prices := List.mem_of_find?_eq_some hf
    have hall : ∀ x ∈ city_prices, (0:ℚ) < x.2 := by decide
    exact hall cp hmem

theorem typeAdjust_pos (property_type : String) {bp : ℚ} (h : 0 < bp) :
    0 < typeAdjust property_type bp := by
  unfold typeAdjust
  split_ifs <;> first | exact h | (apply mul_pos h; norm_num)

theorem suburbAdjust_pos (suburb : Option String) {bp : ℚ} (h : 0 < bp) :
    0 < suburbAdjust suburb bp := by
  cases suburb with
  | none => exact h
  | some s =>
    show 0 < (if s ∈ premiumAucklandSuburbs then bp * (13/10)
      else if s ∈ premiumWellingtonSuburbs then bp * (12/10) else bp)
    split_ifs <;> first | exact h | (apply mul_pos h; norm_num)

theorem synthetic_bounds {base v u1 u2 : ℚ} (hb : 0 < base)
    (hv : 85/100 ≤ v) (hu1 : u1 ≤ 90/100) (hu2 : 110/100 ≤ u2) :
    pyRound0 (base * v * u1) ≤ pyRound0 (base * v) ∧
    pyRound0 (base * v) ≤ pyRound0 (base * v * u2) := by
  have hm : (0:ℚ) ≤ base * v := by nlinarith
  constructor
  · exact pyRound0_mono (mul_le_of_le_one_right hm (le_trans hu1 (by norm_num)))
  · exact pyRound0_mono (le_mul_of_one_le_right hm (le_trans (by norm_num) hu2))

theorem estimate_low_mid_high (url site_name : String) (today : ℕ) :
    (estimate_valuation_data_from_url url site_name today).low ≤
      (estimate_valuation_data_from_url url site_name today).mid ∧
    (estimate_valuation_data_from_url url site_name today).mid ≤
      (estimate_valuation_data_from_url url site_name today).high := by
  unfold estimate_valuation_data_from_url
  dsimp only
  exact synthetic_bounds
    (suburbAdjust_pos _ (typeAdjust_pos _ (get_base_price_pos _)))
    (rngUniform_bounds (md5seed url) 0 (by norm_num)).1
    (rngUniform_bounds (md5seed url) 1 (by norm_num)).2
    (rngUniform_bounds (md5seed url) 2 (by norm_num)).1

/-! ### The closed-form figures of spec §4.7, as claim C1 states them -/

def claimCommission (tv : ℚ) : ℚ := tv * (18/1000)

def claimInterestCost (pp rb annualRate months : ℚ) : ℚ := (pp + rb) * (annualRate/12) * months

def claimGstClaimable (pp rb le : ℚ) : ℚ := (pp + rb + le) * ((15/100) / (1 + 15/100))

def claimGstPayable (tv : ℚ) : ℚ := tv * ((15/100) / (1 + 15/100))

def claimNetGst (pp rb le tv : ℚ) : ℚ := claimGstPayable tv - claimGstClaimable pp rb le

def claimGrossProfit (pp tv rb le cr ins annualRate months : ℚ) : ℚ :=
  tv - pp - rb - le - cr - ins - claimCommission tv - claimInterestCost pp rb annualRate months

def claimPreTaxProfit (pp tv rb le cr ins annualRate months : ℚ) : ℚ :=
  claimGrossProfit pp tv rb le cr ins annualRate months - claimNetGst pp rb le tv

def claimPostTaxProfit (pp tv rb le cr ins annualRate months : ℚ) : ℚ :=
  claimPreTaxProfit pp tv rb le cr ins annualRate months * (1 - 33/100)

/-! ## The claims -/

/-- C1: for every scenario (defaults applied when an argument is absent),
`PropertyFlipCalculator.calculate` returns exactly the closed-form figures
of spec §4.7 — commission, interest cost, GST claimable/payable, net GST,
gross/pre-tax/post-tax profit and the viability flag — every currency
output rounded to 2 decimals; in particular for pp=680000, tv=800000,
rb=100000, le=2500, cr=2000, ins=1800 the concrete rounded figures are as
listed in the final conjunct. -/
theorem c1_calculate_closed_form (pp tv : ℚ)
    (rv cv ins rb le cr int_rate renovation_months : Option ℚ) :
    (calculate pp tv rv cv ins rb le cr int_rate renovation_months).com
        = pyRound2 (claimCommission tv) ∧
    (calculate pp tv rv cv ins rb le cr int_rate renovation_months).int_cost
        = pyRound2 (claimInterestCost pp (rb.getD 100000) (int_rate.getD (75/1000))
            (renovation_months.getD 6)) ∧
    (calculate pp tv rv cv ins rb le cr int_rate renovation_months).gst_claimable
        = pyRound2 (claimGstClaimable pp (rb.getD 100000) (le.getD 2500)) ∧
    (calculate pp tv rv cv ins rb le cr int_rate renovation_months).gst_payable
        = pyRound2 (claimGstPayable tv) ∧
    (calculate pp tv rv cv ins rb le cr int_rate renovation_months).net_gst
        = pyRound2 (claimNetGst pp (rb.getD 100000) (le.getD 2500) tv) ∧
    (calculate pp tv rv cv ins rb le cr int_rate renovation_months).gross_profit
        = pyRound2 (claimGrossProfit pp tv (rb.getD 100000) (le.getD 2500) (cr.getD 2000)
            (ins.getD 1800) (int_rate.getD (75/1000)) (renovation_months.getD 6)) ∧
    (calculate pp tv rv cv ins rb le cr int_rate renovation_months).pre_tax_profit
        = pyRound2 (claimPreTaxProfit pp tv (rb.getD 100000) (le.getD 2500) (cr.getD 2000)
            (ins.getD 1800) (int_rate.getD (75/1000)) (renovation_months.getD 6)) ∧
    (calculate pp tv rv cv ins rb le cr int_rate renovation_months).post_tax_profit
        = pyRound2 (claimPostTaxProfit pp tv (rb.getD 100000) (le.getD 2500) (cr.getD 2000)
            (ins.getD 1800) (int_rate.getD (75/1000)) (renovation_months.getD 6)) ∧
    (calculate pp tv rv cv ins rb le cr int_rate renovation_months).is_viable
        = decide (25000 ≤ claimPostTaxProfit pp tv (rb.getD 100000) (le.getD 2500)
            (cr.getD 2000) (ins.getD 1800) (int_rate.getD (75/1000))
            (renovation_months.getD 6)) ∧
    ((calculate 680000 800000 none none none none none none none none).com = 14400 ∧
      (calculate 680000 800000 none none none none none none none none).int_cost = 29250 ∧
      (calculate 680000 800000 none none none none none none none none).gst_claimable
          = 10206522/100 ∧
      (calculate 680000 800000 none none none none none none none none).gst_payable
          = 10434783/100 ∧
      (calculate 680000 800000 none none none none none none none none).net_gst
          = 228261/100 ∧
      (calculate 680000 800000 none none none none none none none none).gross_profit
          = -29950 ∧
      (calculate 680000 800000 none none none none none none none none).pre_tax_profit
          = -3223261/100 ∧
      (calculate 680000 800000 none none none none none none none none).post_tax_profit
          = -2159585/100 ∧
      (calculate 680000 800000 none none none none none none none none).is_viable = false) :=
  ⟨rfl, rfl, rfl, rfl, rfl, rfl, rfl, rfl, rfl, by decide⟩

set_option maxRecDepth 100000 in
/-- C2 (counterexample): at tv=800000, target=27500 and the default cost
figures, the iteration exactly as the claim words it (guess MINUS
0.8·(postTax − target), clamped into [0.1·tv, 0.9·tv]) converges to
0.1·tv = 80000, while the source's iteration (guess PLUS the damped
difference) returns a different price — the claim's update direction and
clamping are not what the code does. -/
theorem c2_counterexample :
    claim_recommended_pp 800000 27500 1800 100000 2500 2000 (75/1000) 6
      ≠ calc_recommended_pp 800000 27500 1800 100000 2500 2000 (75/1000) 6 := by
  decide

/-- C2 (amended): `_calculate_recommended_pp` is the damped fixed-point
iteration that starts at 0.5·targetValue, runs at most 100 rounds,
recomputes postTaxProfit(guess) each round, stops as soon as that profit is
within $100 of the target, updates the guess by ADDING
0.8·(postTaxProfit(guess) − target), resets a guess that falls below 0 to
0.1·targetValue and one that exceeds targetValue to 0.9·targetValue, and
returns the last guess without raising even when it has not converged. -/
theorem c2_recommended_pp_amended (tv target ins rb le cr int_rate months : ℚ) :
    calc_recommended_pp tv target ins rb le cr int_rate months
      = amended_recommended_pp tv target ins rb le cr int_rate months :=
  recommendedLoop_eq_amended tv target ins rb le cr (tv * Config.COMMISSION_RATE)
    (int_rate / 12) months 100 (tv * (5/10))

/-- C3: every extraction path that produces all three values satisfies
low ≤ mid ≤ high — the live range path (mid = (low+high)/2 under the
plausibility guard), the single-figure fallback (low = 0.85·mid,
high = 1.15·mid for a plausible figure), and the synthetic URL-based
estimate for every url. -/
theorem c3_valuation_low_mid_high (low high mid : ℚ) (url site_name : String) (today : ℕ)
    (hr : rangeGuard low high) (hs : singleGuard mid) :
    ((parseFromRange low high).low ≤ (parseFromRange low high).mid ∧
      (parseFromRange low high).mid ≤ (parseFromRange low high).high) ∧
    ((parseFromSingle mid).low ≤ (parseFromSingle mid).mid ∧
      (parseFromSingle mid).mid ≤ (parseFromSingle mid).high) ∧
    ((estimate_valuation_data_from_url url site_name today).low ≤
        (estimate_valuation_data_from_url url site_name today).mid ∧
      (estimate_valuation_data_from_url url site_name today).mid ≤
        (estimate_valuation_data_from_url url site_name today).high) := by
  obtain ⟨hg1, hg2, hg3, hg4⟩ := hr
  refine ⟨⟨pyRound0_mono (by linarith), pyRound0_mono (by linarith)⟩,
    ⟨pyRound0_mono ?_, pyRound0_mono ?_⟩,
    estimate_low_mid_high url site_name today⟩
  · unfold singleGuard at hs; nlinarith
  · unfold singleGuard at hs; nlinarith

/-- C3 (witness): the three paths at concrete inputs — range 500000-700000,
single figure 600000, and a trademe Auckland url. -/
theorem c3_valuation_low_mid_high_witness :
    rangeGuard 500000 700000 ∧ singleGuard 600000 ∧
    (((parseFromRange 500000 700000).low ≤ (parseFromRange 500000 700000).mid ∧
      (parseFromRange 500000 700000).mid ≤ (parseFromRange 500000 700000).high) ∧
    ((parseFromSingle 600000).low ≤ (parseFromSingle 600000).mid ∧
      (parseFromSingle 600000).mid ≤ (parseFromSingle 600000).high) ∧
    ((estimate_valuation_data_from_url "https://trademe.co.nz/auckland/ponsonby/listing"
        "TradeMe" 3000).low ≤
      (estimate_valuation_data_from_url "https://trademe.co.nz/auckland/ponsonby/listing"
        "TradeMe" 3000).mid ∧
      (estimate_valuation_data_from_url "https://trademe.co.nz/auckland/ponsonby/listing"
        "TradeMe" 3000).mid ≤
      (estimate_valuation_data_from_url "https://trademe.co.nz/auckland/ponsonby/listing"
        "TradeMe" 3000).high)) :=
  ⟨by norm_num [rangeGuard], by norm_num [singleGuard],
    c3_valuation_low_mid_high 500000 700000 600000
      "https://trademe.co.nz/auckland/ponsonby/listing" "TradeMe" 3000
      (by norm_num [rangeGuard]) (by norm_num [singleGuard])⟩

/-- C4 (counterexample): the synthetic tier is not byte-identical across
calls for the last-sale date — the same URL estimated on day 2000 and on
day 2001 yields different last-sale dates, because the date is derived from
`datetime.now()`, not from the seeded generator alone. -/
theorem c4_counterexample :
    (estimate_valuation_data_from_url "https://trademe.co.nz/auckland/x" "TradeMe"
        2000).last_sale_date ≠
    (estimate_valuation_data_from_url "https://trademe.co.nz/auckland/x" "TradeMe"
        2001).last_sale_date := by
  decide

/-- C4 (amended): two calls of the synthetic tier with the same URL produce
byte-identical low, mid, high, last-sale price and days-ago offset — all
drawn from a generator seeded by a stable hash of the URL — while the
last-sale date additionally depends on the current clock date
(`today - daysAgo`), so it is byte-identical exactly when the calls happen
on the same day. -/
theorem c4_synthetic_deterministic_amended (url site_name : String) (t1 t2 : ℕ) :
    (estimate_valuation_data_from_url url site_name t1).low
        = (estimate_valuation_data_from_url url site_name t2).low ∧
    (estimate_valuation_data_from_url url site_name t1).mid
        = (estimate_valuation_data_from_url url site_name t2).mid ∧
    (estimate_valuation_data_from_url url site_name t1).high
        = (estimate_valuation_data_from_url url site_name t2).high ∧
    (estimate_valuation_data_from_url url site_name t1).last_sale_price
        = (estimate_valuation_data_from_url url site_name t2).last_sale_price ∧
    (estimate_valuation_data_from_url url site_name t1).last_sale_date
        = t1 - rngRandint (md5seed url) 4 60 1095 ∧
    (t1 = t2 → (estimate_valuation_data_from_url url site_name t1).last_sale_date
        = (estimate_valuation_data_from_url url site_name t2).last_sale_date) :=
  ⟨rfl, rfl, rfl, rfl, rfl, fun h => by rw [h]⟩

/-- C5: `fetch_with_browser` returns a populated `DataPoints` for every
outcome of the three fallible stages of its try block — an exception
raised while initializing the browser, enforcing the rate limit, or
scraping lands in the except branch, which answers with the synthetic
URL-based estimate instead of re-raising, and the degradation shows only
in the source string. -/
theorem c5_fetch_never_propagates (address url site_name : String) (today : ℕ)
    (init_outcome rate_outcome : Except String Unit)
    (scrape_outcome : Except String PropertyData) :
    (∀ msg, init_outcome = .error msg →
      fetch_with_browser address url site_name today init_outcome rate_outcome scrape_outcome
        = dataPointsFromEstimate address
            (estimate_valuation_data_from_url url site_name today)) ∧
    (∀ msg, rate_outcome = .error msg →
      fetch_with_browser address url site_name today init_outcome rate_outcome scrape_outcome
        = dataPointsFromEstimate address
            (estimate_valuation_data_from_url url site_name today)) ∧
    (∀ msg, scrape_outcome = .error msg →
      fetch_with_browser address url site_name today init_outcome rate_outcome scrape_outcome
        = dataPointsFromEstimate address
            (estimate_valuation_data_from_url url site_name today)) ∧
    (∀ d, init_outcome = .ok () → rate_outcome = .ok () → scrape_outcome = .ok d →
      fetch_with_browser address url site_name today init_outcome rate_outcome scrape_outcome
        = dataPointsFromScrape address site_name d) ∧
    (dataPointsFromEstimate address
        (estimate_valuation_data_from_url url site_name today)).valuation_source
      = site_name ++ " URL Analysis (Concurrent Browser blocked)" := by
  refine ⟨?_, ?_, ?_, ?_, rfl⟩
  · rintro msg rfl; rfl
  · rintro msg rfl
    cases init_outcome <;> rfl
  · rintro msg rfl
    cases init_outcome <;> try rfl
    cases rate_outcome <;> rfl
  · rintro d rfl rfl rfl; rfl

/-- C6: the `while True` loop of `_gradual_scroll` has no iteration cap and
no deadline — on a page whose height grows by 1000 pixels per height query
the loop's break is unreachable, so it has not exited after any number of
iterations; the claim's bounded-scroll defense does not exist in the code. -/
theorem c6_scroll_loop_unbounded (fuel : ℕ) : scrollExits growingPage fuel = false :=
  scrollExitsAux_growingPage fuel 0 0 (by omega)

/-- C7 (counterexample): an entry whose age is exactly the TTL (stored day
0, queried day 7, TTL 7 days) is rejected by `is_cache_valid`, but the
claim's staleness predicate `now − storedAt > TTL` calls it fresh — the
code's boundary is `now − storedAt ≥ TTL`, not `>`. -/
theorem c7_counterexample :
    is_cache_valid Config.CACHE_EXPIRY_DAYS 7 (some 0) = false ∧
    claim_cache_valid Config.CACHE_EXPIRY_DAYS 7 (some 0) = true := by
  decide

/-- C7 (amended): a cache entry is stale exactly when
now − storedAt ≥ CACHE_EXPIRY_DAYS (default 7 days): `is_cache_valid`
returns True iff the timestamp is present and `now − storedAt <` the TTL,
and the cached property lookup returns the stored entry unchanged iff the
selected entry exists and is non-stale, returning nothing otherwise. -/
theorem c7_cache_staleness_amended (cache_expiry_days now : ℚ) (timestamp : Option ℚ)
    (address trademe_url : Option String) (byUrl byAddress : Option PropertyEntry) :
    Config.CACHE_EXPIRY_DAYS = 7 ∧
    (is_cache_valid cache_expiry_days now timestamp = true ↔
      ∃ ts, timestamp = some ts ∧ now - ts < cache_expiry_days) ∧
    (∀ p, get_cached_property cache_expiry_days now address trademe_url byUrl byAddress
        = some p ↔
      (cacheLookup trademe_url address byUrl byAddress = some p ∧
        now - p.updated_at < cache_expiry_days)) := by
  refine ⟨rfl, ?_, ?_⟩
  · cases timestamp with
    | none => simp [is_cache_valid]
    | some ts =>
      simp only [is_cache_valid, decide_eq_true_eq, Option.some.injEq]
      constructor
      · intro h; exact ⟨ts, rfl, by linarith⟩
      · rintro ⟨t, rfl, h⟩; linarith
  · intro p
    unfold get_cached_property
    cases hc : cacheLookup trademe_url address byUrl byAddress with
    | none => simp
    | some q =>
      simp only [is_cache_valid]
      by_cases hv : now - cache_expiry_days < q.updated_at
      · simp only [hv, decide_True, if_true]
        constructor
        · intro h
          refine ⟨h, ?_⟩
          obtain rfl : q = p := by injection h
          linarith
        · rintro ⟨hq, _⟩; exact hq
      · simp only [hv, decide_False, if_false]
        constructor
        · rintro ⟨⟩
        · rintro ⟨hq, h2⟩
          obtain rfl : q = p := by injection hq
          exact absurd (by linarith) hv

/-- C8: the `margin_score` of `score_datapoints` is the exact piecewise
function of marginRatio = (netSale − totalCost)/totalCost with
netSale = ARV × 0.94 and totalCost = purchasePrice + rehabCost — 0 at or
below ratio 0, exactly 6.0 at or above 0.20, linear in between — and
marginRatio = 0.20 gives exactly 6.0 while marginRatio = −0.05 gives 0. -/
theorem c8_margin_subscore (pp rc arv : ℚ) (h1 : pp ≠ 0) (h2 : rc ≠ 0) (h3 : arv ≠ 0)
    (h4 : 0 < pp + rc) :
    margin_score_of (some pp) (some rc) (some arv)
        = some (claimMarginSub (claimMarginRatio pp rc arv)) ∧
    claimMarginSub (20/100) = 6 ∧
    claimMarginSub (-(5/100)) = 0 ∧
    margin_score_of (some 500000) (some 100000) (some (36000000/47)) = some 6 := by
  refine ⟨?_, by decide, by decide, by decide⟩
  have hb : (truthyQ (some pp) && truthyQ (some rc) && truthyQ (some arv)) = true := by
    simp [truthyQ, h1, h2, h3]
  unfold margin_score_of claimMarginSub claimMarginRatio
  rw [hb]
  simp only [Option.getD_some, if_true]
  rw [if_pos h4]

/-- C8 (witness): the theorem at purchasePrice 500000, rehabCost 100000 and
ARV 36000000/47 (margin ratio exactly 0.20). -/
theorem c8_margin_subscore_witness :
    margin_score_of (some 500000) (some 100000) (some (36000000/47))
        = some (claimMarginSub (claimMarginRatio 500000 100000 (36000000/47))) ∧
    claimMarginSub (20/100) = 6 ∧
    claimMarginSub (-(5/100)) = 0 ∧
    margin_score_of (some 500000) (some 100000) (some (36000000/47)) = some 6 :=
  c8_margin_subscore 500000 100000 (36000000/47) (by norm_num) (by norm_num) (by norm_num)
    (by norm_num)

/-- C9 (counterexample): a sale in the right suburb with the right bedroom
count whose floor area is present but equal to 0 is KEPT by
`find_comparables` (a zero floor area is falsy, so the ±20% test is
skipped), while the claim's rule — both areas present, so
|0 − 100|/100 = 1 > 0.20 — excludes it. -/
theorem c9_counterexample :
    find_comparables [⟨"Ponsonby", 3, some 0, none⟩] "ponsonby" 3 (some 100)
        = [⟨"Ponsonby", 3, some 0, none⟩] ∧
    claimKeeps "ponsonby" 3 (some 100) ⟨"Ponsonby", 3, some 0, none⟩ = false := by
  decide

/-- C9 (amended): `find_comparables` keeps a sale iff both suburbs are
non-empty and equal case-insensitively after trimming, the bedroom count
matches exactly, and — whenever both floor areas are present AND nonzero —
|floorArea − target|/target ≤ 0.20; a sale with floor area 25% off the
target is excluded and one 15% off is included. -/
theorem c9_find_comparables_amended (sales : List RecentSale) (target_suburb : String)
    (target_bedrooms : ℤ) (target_floor_area : Option ℚ) :
    find_comparables sales target_suburb target_bedrooms target_floor_area
        = sales.filter (amendedKeeps target_suburb target_bedrooms target_floor_area) ∧
    find_comparables [⟨"Ponsonby", 3, some 115, none⟩] "ponsonby" 3 (some 100)
        = [⟨"Ponsonby", 3, some 115, none⟩] ∧
    find_comparables [⟨"Ponsonby", 3, some 125, none⟩] "ponsonby" 3 (some 100) = [] := by
  refine ⟨?_, by decide, by decide⟩
  have hfun : keep_sale target_suburb target_bedrooms target_floor_area
      = amendedKeeps target_suburb target_bedrooms target_floor_area :=
    funext (keep_sale_eq_amended target_suburb target_bedrooms target_floor_area)
  cases sales with
  | nil => rfl
  | cons a l =>
    show List.filter _ _ = List.filter _ _
    rw [hfun]

set_option maxRecDepth 100000 in
/-- C10: passing a rateable or capital value equal to exactly 0 makes the
returned `rv`/`cv` field None rather than 0.0, and a computed recommended
purchase price of exactly 0 likewise comes back as None (presence is
tested by truthiness): at pp=0, tv=0 with all costs 0 the scenario is not
viable, the solver computes exactly 0, and the result field is None. -/
theorem c10_zero_values_truthiness (pp tv : ℚ)
    (rv cv ins rb le cr int_rate renovation_months : Option ℚ) :
    (calculate pp tv (some 0) cv ins rb le cr int_rate renovation_months).rv = none ∧
    (calculate pp tv rv (some 0) ins rb le cr int_rate renovation_months).cv = none ∧
    (calculate 0 0 none none (some 0) (some 0) (some 0) (some 0) none none).recommended_pp
        = none ∧
    calc_recommended_pp 0 ((25000 + 30000)/2) 0 0 0 0 (75/1000) 6 = 0 :=
  ⟨rfl, rfl, by decide, by decide⟩

end Embedding
